import Mathlib

/-!
Verification development for the tptmp relay server (node-tptmp).

The definitions below are a shallow embedding of the relevant parts of the
source files src/src/room.js, src/src/server.js and the client session file
(src/unnamed/part_000, referred to as client.js below).  Bytes are modelled
as natural numbers (every byte written by the source is below 256), buffers
and strings on the wire as lists of naturals, and JavaScript runtime values
that can hold numbers, objects, null or undefined as the inductive type
JVal.  Socket writes are modelled as pairs (recipient object reference,
bytes written).
-/

set_option maxHeartbeats 1000000
set_option maxRecDepth 100000

/-- ASCII byte sequence of a Lean string (all protocol strings are ASCII). -/
def strBytes (s : String) : List Nat :=
  s.data.map (fun ch => ch.toNat)

/-- A JavaScript runtime value as stored in fields such as room.op:
either null, undefined, a number, or a reference to a client object
(identified by an object reference number).  Equality of JVal models the
JavaScript strict-equality operator on these values: numbers compare by
value, object references by identity, and values of different kinds are
never strictly equal. -/
inductive JVal where
  | jnull
  | undef
  | num (n : Nat)
  | clientRef (r : Nat)
  deriving DecidableEq

/-- The per-session mirror state of a client (client.js, constructor lines
11-47).  ref is the object identity of the Client object, id the wire id
allocated at admission.  replaceMode is stored as bytes (the constructor
initialises it to the string consisting of the digit zero, byte 48; opcode
38 overwrites it with the byte read from the socket). -/
structure Client where
  ref : Nat
  id : Nat
  nick : String
  brush : Nat
  brushSize : List Nat
  brushSelection : List (List Nat)
  replaceMode : List Nat
  deco : List Nat
  isChat : Bool
  deriving DecidableEq

/-- A freshly constructed client (client.js lines 16-27): brush 0,
brushSize (4,4), brushSelection entries (0,1),(64,0),(128,0),(192,0),
replaceMode the digit zero, deco zeroed, isChat false.  The nickname is
normally assigned later during the handshake; it is a parameter here. -/
def mkClient (ref id : Nat) (nick : String) : Client :=
  { ref := ref, id := id, nick := nick, brush := 0, brushSize := [4, 4],
    brushSelection := [[0, 1], [64, 0], [128, 0], [192, 0]],
    replaceMode := [48], deco := [0, 0, 0, 0], isChat := false }

/-- A socket write: (object reference of the receiving client, bytes). -/
abbrev Write := Nat × List Nat

/-- A room (room.js lines 10-15): name, the member set in insertion order,
and op.  op is a JVal because the source stores a client id number in it on
join but a whole client object in it on operator re-election. -/
structure Room where
  name : String
  clients : List Client
  op : JVal
  deriving DecidableEq

/-- room.js lines 21-26, Room.prototype.send: write buf to every member
whose id is not strictly equal to except.id.  exceptId is the JVal holding
except.id (undefined when send is called without an except argument, in
which case nobody is excluded). -/
def Room.send (r : Room) (buf : List Nat) (exceptId : JVal) : List Write :=
  r.clients.filterMap (fun m =>
    if JVal.num m.id = exceptId then none else some ((m.ref, buf) : Write))

/-- room.js lines 31-39, Room.prototype.requestSync: write [128, c.id] to
the first member that is not in chat mode and does not share the id of the
requesting client; do nothing when no member qualifies (or the room is
empty, which is the same thing). -/
def Room.requestSync (r : Room) (c : Client) : List Write :=
  match r.clients.find? (fun m => !m.isChat && !(m.id == c.id)) with
  | some m => [(m.ref, [128, c.id])]
  | none => []

/-- room.js lines 54-66: the state-replay writes for one existing member m,
sent to the joining client (destination reference dst): m.brush copies of
[35, m.id], then [34, m.id, brushSize], then [37, m.id, brushSelection i]
for i = 0,1,2,3, then [38, m.id, replaceMode], then [65, m.id, deco]. -/
def memberStateWrites (dst : Nat) (m : Client) : List Write :=
  List.replicate m.brush ((dst, [35, m.id]) : Write)
    ++ [(dst, [34, m.id] ++ m.brushSize)]
    ++ (List.range 4).map (fun i => ((dst, [37, m.id] ++ m.brushSelection.getD i []) : Write))
    ++ [(dst, [38, m.id] ++ m.replaceMode), (dst, [65, m.id] ++ m.deco)]

/-- room.js lines 45-71, Room.prototype.join.  Returns the updated room and
the socket writes, in program order: no-op when the client object is
already a member; otherwise set op to the joiner id when the room was
empty, write [16, member count] and the roster and state frames to the
joiner, broadcast [17, id, nick, 0] excluding the joiner id, run
requestSync, and only then add the joiner to the member set. -/
def Room.join (r : Room) (c : Client) : Room × List Write :=
  if r.clients.any (fun m => m.ref == c.ref) then (r, [])
  else
    let r2 : Room := if r.clients.isEmpty then { r with op := JVal.num c.id } else r
    let roster := r2.clients.map (fun m =>
      ((c.ref, [m.id] ++ strBytes m.nick ++ [0]) : Write))
    let states := (r2.clients.map (memberStateWrites c.ref)).flatten
    let bcast := Room.send r2 ([17, c.id] ++ strBytes c.nick ++ [0]) (JVal.num c.id)
    let sync := Room.requestSync r2 c
    ({ r2 with clients := r2.clients ++ [c] },
      ((c.ref, [16, r2.clients.length]) : Write) :: roster ++ states ++ bcast ++ sync)

/-- room.js lines 77-82, Room.prototype.part: delete the client from the
member set; when op was strictly equal to the departing id, set op to the
first remaining element of the member set (the whole client object, or
undefined when the set became empty); broadcast [18, id] excluding the
departing id. -/
def Room.part (r : Room) (c : Client) : Room × List Write :=
  let clients := r.clients.filter (fun m => !(m.ref == c.ref))
  let op := if r.op = JVal.num c.id then
      (match clients.head? with
       | some m => JVal.clientRef m.ref
       | none => JVal.undef)
    else r.op
  let r2 : Room := { r with clients := clients, op := op }
  (r2, Room.send r2 [18, c.id] (JVal.num c.id))

/-- client.js lines 238-242, opcode 35 (brush shape change): set brush to
(brush mod 3) + 1 and relay [35, id] to the room excluding self. -/
def op35 (c : Client) : Client × List Nat :=
  ({ c with brush := c.brush % 3 + 1 }, [35, c.id])

/-- The state part of the opcode 35 handler. -/
def op35S (c : Client) : Client :=
  (op35 c).1

/-- JavaScript assignment to an array index: overwrite when the index is in
range, otherwise extend the array (indices between the old length and the
written index become holes, modelled as empty byte lists; no claim reads a
hole). -/
def arraySet (l : List (List Nat)) (i : Nat) (v : List Nat) : List (List Nat) :=
  if i < l.length then l.set i v
  else l ++ List.replicate (i - l.length) [] ++ [v]

/-- client.js lines 248-258, opcode 37 (selected element) on a two-byte
payload (a, b): when a is not 194 and b is not 195, store (a, b) at
brushSelection index (a divided by 64, floored) + 1 and relay
[37, id, a, b]; otherwise set isChat and relay nothing. -/
def op37 (c : Client) (a b : Nat) : Client × Option (List Nat) :=
  let button := a / 64
  if a ≠ 194 ∧ b ≠ 195 then
    ({ c with brushSelection := arraySet c.brushSelection (button + 1) [a, b] },
      some ([37, c.id, a, b]))
  else
    ({ c with isChat := true }, none)

/-- The configured version constants (constants.version in the source;
the constants module itself is configuration, so the window is a
parameter here). -/
structure VersionWindow where
  majorMin : Nat
  minorMin : Nat
  majorMax : Nat
  minorMax : Nat
  script : Nat
  deriving DecidableEq

/-- Outcome of the handshake: an error frame written followed by a
disconnect with a reason, a thrown JavaScript exception (the session
neither writes nor disconnects), or successful identification. -/
inductive HsResult where
  | errClosed (frame : List Nat) (reason : List Nat)
  | thrown
  | identified (nick : List Nat)
  deriving DecidableEq

/-- One byte of the character class of the nickname pattern (letters,
digits, underscore and hyphen). -/
def isWordDashByte (b : Nat) : Bool :=
  decide ((65 ≤ b ∧ b ≤ 90) ∨ (97 ≤ b ∧ b ≤ 122) ∨ (48 ≤ b ∧ b ≤ 57) ∨ b = 95 ∨ b = 45)

/-- client.js lines 95-147: the handshake on the NUL-terminated record buf.
buf holds major, minor and script bytes followed by the nickname bytes
(records relevant to the claims have at least three bytes, so the
defaulted indexing below coincides with Buffer indexing).  others is the
server client table as (id, optional nick) pairs; selfId the id allocated
to this session.  The script-mismatch branch at lines 117-122 interpolates
this.constants.SCRIPT into the message, but Client objects have no field
named constants, so evaluating the template literal throws a TypeError
before socket.write or disconnect can run: the branch is therefore
modelled as HsResult.thrown. -/
def handshake (cs : VersionWindow) (others : List (Nat × Option (List Nat)))
    (selfId : Nat) (buf : List Nat) : HsResult :=
  let major := buf.getD 0 0
  let minor := buf.getD 1 0
  let scriptVer := buf.getD 2 0
  if major < cs.majorMin ∨ (major = cs.majorMin ∧ minor < cs.minorMin) then
    HsResult.errClosed
      ([0] ++ strBytes ("Client out of date (expected at least "
        ++ Nat.repr cs.majorMin ++ "." ++ Nat.repr cs.minorMin ++ ")") ++ [0])
      (strBytes ("Old version: " ++ Nat.repr major ++ "." ++ Nat.repr minor))
  else if cs.majorMax < major ∨ (major = cs.majorMax ∧ cs.minorMax < minor) then
    HsResult.errClosed
      ([0] ++ strBytes ("Client too new (expected at most "
        ++ Nat.repr cs.majorMax ++ "." ++ Nat.repr cs.minorMax ++ ")") ++ [0])
      (strBytes ("New version: " ++ Nat.repr major ++ "." ++ Nat.repr minor))
  else if scriptVer ≠ cs.script then
    HsResult.thrown
  else
    let nick := buf.drop 3
    if ¬ (nick ≠ [] ∧ nick.all isWordDashByte = true) then
      HsResult.errClosed ([0] ++ strBytes ("Bad nickname") ++ [0])
        (strBytes ("Invalid nickname"))
    else if 32 < nick.length then
      HsResult.errClosed ([0] ++ strBytes ("Nick too long") ++ [0])
        (strBytes ("Nick was too long (" ++ Nat.repr nick.length ++ ")"))
    else if others.any (fun p => p.2 == some nick && !(p.1 == selfId)) then
      HsResult.errClosed ([0] ++ strBytes ("This nick is already on the server") ++ [0])
        (strBytes ("Nick taken (") ++ nick ++ strBytes (")"))
    else
      HsResult.identified nick

/-- server.js line 47: the capacity error frame with the current client
count interpolated. -/
def serverFullFrame (n : Nat) : List Nat :=
  [0] ++ strBytes ("Server is full (" ++ Nat.repr n ++ "/255)") ++ [0]

/-- server.js lines 45-53 (connection handler) combined with the id
allocation loop of client.js lines 30-35: when the client table already
holds 255 or more clients, write the capacity frame and close without
creating a client; otherwise create a client with the lowest id below 256
that is not a table key and add it to the table.  ids is the list of table
keys; the result pairs the frame written (if any) with the new key list.
The none branch of the allocation search is unreachable while the length
is below 255 (proved below); reaching it in JavaScript would leave the new
client id undefined. -/
def connectionHandler (ids : List Nat) : Option (List Nat) × List Nat :=
  if 255 ≤ ids.length then (some (serverFullFrame ids.length), ids)
  else
    match (List.range 256).find? (fun i => !(decide (i ∈ ids))) with
    | some i => (none, ids ++ [i])
    | none => (none, ids)

/-- client.js lines 449-451, Client.prototype.serverMessage: the frame
[22, message bytes, 0, r, g, b].  The source defaults r, g, b to 127, 255,
255; call sites below pass the defaults explicitly. -/
def serverMessage (msg : List Nat) (r g b : Nat) : List Nat :=
  [22] ++ msg ++ [0, r, g, b]

/-- Whether every character of s lies in the printable ASCII range 32-126
(the pattern matching a string of characters from space to tilde). -/
def printableAscii (s : String) : Bool :=
  s.data.all (fun ch => decide (32 ≤ ch.toNat ∧ ch.toNat ≤ 126))

/-- The text of the lobby kick refusal, byte 39 being the apostrophe. -/
def cantKickLobbyMsg : List Nat :=
  strBytes ("You can") ++ [39] ++ strBytes ("t kick people from the lobby")

/-- The text of the non-operator kick refusal, byte 39 the apostrophe. -/
def cantKickHereMsg : List Nat :=
  strBytes ("You can") ++ [39] ++ strBytes ("t kick people from here")

/-- client.js lines 194-217, opcode 21 (kick): validate the reason
(printable characters, at most 200 long), refuse in the lobby room named
null, refuse when room.op is not strictly equal to the issuing id, and
otherwise kick the first member whose nick matches (an empty reason falls
back to the default).  Returns the writes to the issuing client and the
kick action performed, as (target reference, effective reason), if any. -/
def kickHandler (room : Room) (selfRef selfId : Nat) (nick reason : String) :
    List Write × Option (Nat × String) :=
  if printableAscii reason = false then
    ([(selfRef, serverMessage (strBytes ("Invalid characters in kick reason")) 127 255 255)], none)
  else if 200 < reason.length then
    ([(selfRef, serverMessage (strBytes ("Kick reason too long")) 127 255 255)], none)
  else if room.name = "null" then
    ([(selfRef, serverMessage cantKickLobbyMsg 127 255 255)], none)
  else if ¬ (room.op = JVal.num selfId) then
    ([(selfRef, serverMessage cantKickHereMsg 127 255 255)], none)
  else
    match room.clients.find? (fun m => m.nick == nick) with
    | some t => ([], some (t.ref, if reason = "" then "No reason given" else reason))
    | none => ([], none)

/-- client.js lines 75-87, Client.prototype.readBytes, over the list of
all bytes that will ever arrive on the socket: the promise resolves with
the first n bytes once they are available.  Node Readable.read(0) always
returns null (it only triggers a refill), so for n = 0 the handler never
resolves and the session hangs; a request for more bytes than will ever
arrive also never resolves.  Both non-resolving cases are none. -/
def readBytes (n : Nat) (stream : List Nat) : Option (List Nat × List Nat) :=
  if n = 0 then none
  else if n ≤ stream.length then some (stream.take n, stream.drop n)
  else none

/-- client.js lines 351-360, opcode 66 (stamp): read a six-byte header,
take the first three bytes as the location and the last three as a
big-endian payload length, read that many payload bytes, and relay
[66, id, location, length bytes, payload].  none means the session hangs
in readBytes and never relays. -/
def op66 (selfId : Nat) (stream : List Nat) : Option (List Nat × List Nat) :=
  match readBytes 6 stream with
  | none => none
  | some (data, rest) =>
    let location := data.take 3
    let size := data.getD 3 0 * 65536 + data.getD 4 0 * 256 + data.getD 5 0
    match readBytes size rest with
    | none => none
    | some (stamp, rest2) =>
      some ([66, selfId] ++ location ++ [data.getD 3 0, data.getD 4 0, data.getD 5 0]
        ++ stamp, rest2)

/-- Lifecycle events observable on the event bus, in emission order:
the client-level disconnect event (client.js line 407), the server-level
disconnect event (server.js line 94), the client-level part event
(client.js line 427), the server-level part event (server.js line 79),
the room-level part event (room.js line 78), the room delete event and
the server roomDelete event (server.js lines 82-83). -/
inductive Ev where
  | cDis (reason : String)
  | sDis (id : Nat) (reason : String)
  | cPart
  | sPart (id : Nat) (room : String)
  | rPart (id : Nat)
  | rDel (name : String)
  | sRoomDel (name : String)
  deriving DecidableEq, BEq

/-- The state touched by a disconnect: the server client table keys, the
room table, the disconnecting session and its current room pointer, and
the emitted events. -/
structure World where
  registry : List Nat
  rooms : List (String × Room)
  self : Client
  selfRoom : Option String
  events : List Ev
  deriving DecidableEq

/-- client.js lines 406-411 (Client.prototype.disconnect) together with
server.js lines 93-96, client.js lines 426-430 (part) and server.js lines
78-86: emit the client disconnect event, emit the server disconnect event
and delete the id from the client table, end the socket, and when the
session still holds a room pointer run the part chain: emit the client and
server part events, emit the room part event, remove the member and
re-elect op (Room.part; its broadcast writes are not tracked here), then
delete the room when it became empty, emitting the delete events.  The
room pointer is cleared at the end of part. -/
def discWorld (w : World) (reason : String) : World :=
  let ev1 := w.events ++ [Ev.cDis reason, Ev.sDis w.self.id reason]
  let reg := w.registry.erase w.self.id
  match w.selfRoom with
  | none => { w with events := ev1, registry := reg }
  | some rn =>
    let ev2 := ev1 ++ [Ev.cPart, Ev.sPart w.self.id rn]
    match w.rooms.find? (fun p => p.1 == rn) with
    | none => { w with events := ev2, registry := reg, selfRoom := none }
    | some pr =>
      let res := Room.part pr.2 w.self
      let ev3 := ev2 ++ [Ev.rPart w.self.id]
      if res.1.clients.length = 0 then
        { w with
          events := ev3 ++ [Ev.rDel rn, Ev.sRoomDel rn], registry := reg,
          rooms := w.rooms.filter (fun p => !(p.1 == rn)), selfRoom := none }
      else
        { w with
          events := ev3, registry := reg,
          rooms := w.rooms.map (fun p => if p.1 == rn then (rn, res.1) else p),
          selfRoom := none }

/-- The join replay as the specification words it: the frame
[16, member count] to the joiner, one roster frame per existing member,
each existing member state block in the same order, the frame
[17, id, nick, 0] to every existing member (each exactly once), and the
sync request of the specification, all computed from the member set
without the joiner. -/
def joinSpecWrites (r : Room) (c : Client) : List Write :=
  ((c.ref, [16, r.clients.length]) : Write)
    :: (r.clients.map (fun m => ((c.ref, [m.id] ++ strBytes m.nick ++ [0]) : Write))
      ++ (r.clients.map (memberStateWrites c.ref)).flatten
      ++ r.clients.map (fun m => ((m.ref, [17, c.id] ++ strBytes c.nick ++ [0]) : Write))
      ++ Room.requestSync r c)

/-- Fixture: a client with reference 100, id 0. -/
def cA : Client :=
  mkClient 100 0 ("aaa")

/-- Fixture: a client with reference 101, id 1. -/
def cB : Client :=
  mkClient 101 1 ("bbb")

/-- Fixture: a room in the state reached by joining cA (elected operator,
op = 0) and then cB into a fresh room named r1. -/
def roomR1 : Room :=
  { name := "r1", clients := [cA, cB], op := JVal.num 0 }

/-- Fixture: a client for the opcode 37 theorems. -/
def selClient : Client :=
  mkClient 7 3 ("sel")

/-- Fixture: a world holding a single connected client cA that is alone in
the lobby room named null and owns id 0. -/
def w0 : World :=
  { registry := [0],
    rooms := [(("null" : String), { name := "null", clients := [cA], op := JVal.num 0 })],
    self := cA, selfRoom := some ("null"), events := [] }

/-- C1: the claim says that parting the operator from a room that keeps at
least one member re-elects op to the id of the first remaining member, so
that op is again some member id.  The code (room.js line 80) instead
assigns the first remaining member object itself.  Concretely, parting cA
(id 0, operator) from roomR1 leaves member cB (id 1), and the resulting op
is the client object reference of cB, is not the number 1, and equals no
member id, so the claimed invariant fails. -/
theorem part_op_gets_object_not_id :
    (Room.part roomR1 cA).1.clients = [cB]
    ∧ (Room.part roomR1 cA).1.op = JVal.clientRef 101
    ∧ (Room.part roomR1 cA).1.op ≠ JVal.num cB.id
    ∧ ((Room.part roomR1 cA).1.clients.all
        (fun m => !((Room.part roomR1 cA).1.op == JVal.num m.id))) = true := by
  decide

/-- C2: the claim says isChat is set exactly when the opcode 37 payload is
(194, 195).  The code guards the store branch with the conjunction of the
two inequalities (client.js line 251), so the chat branch triggers when
the first byte is 194 or the second is 195.  On payload (194, 0), which is
not (194, 195), the code sets isChat and relays nothing. -/
theorem op37_chat_branch_on_or :
    (op37 selClient 194 0).1.isChat = true
    ∧ (op37 selClient 194 0).2 = none
    ∧ ¬ ((194 : Nat) = 194 ∧ (0 : Nat) = 195) := by
  decide

/-- C3: the claim says a script mismatch inside the accepted version
window writes the error frame naming the configured script value and then
disconnects.  The code instead evaluates this.constants.SCRIPT, a property
of an undefined value, so a TypeError is thrown before any write or
disconnect: for every window, client table and record whose major and
minor pass both window checks but whose script byte differs, the handshake
outcome is the thrown exception. -/
theorem script_mismatch_throws (cs : VersionWindow)
    (others : List (Nat × Option (List Nat))) (selfId : Nat) (buf : List Nat)
    (h1 : ¬ (buf.getD 0 0 < cs.majorMin
      ∨ (buf.getD 0 0 = cs.majorMin ∧ buf.getD 1 0 < cs.minorMin)))
    (h2 : ¬ (cs.majorMax < buf.getD 0 0
      ∨ (buf.getD 0 0 = cs.majorMax ∧ cs.minorMax < buf.getD 1 0)))
    (h3 : buf.getD 2 0 ≠ cs.script) :
    handshake cs others selfId buf = HsResult.thrown := by
  simp only [handshake]
  rw [if_neg h1, if_neg h2, if_pos h3]

/-- Witness for the script mismatch theorem: window 1.0 to 2.0 with script
value 5, record major 1, minor 0, script 4, nickname the single byte a. -/
theorem script_mismatch_throws_witness :
    ¬ (([1, 0, 4, 97] : List Nat).getD 0 0 < 1
      ∨ (([1, 0, 4, 97] : List Nat).getD 0 0 = 1 ∧ ([1, 0, 4, 97] : List Nat).getD 1 0 < 0))
    ∧ handshake ⟨1, 0, 2, 0, 5⟩ [] 0 [1, 0, 4, 97] = HsResult.thrown :=
  ⟨by decide,
    script_mismatch_throws ⟨1, 0, 2, 0, 5⟩ [] 0 [1, 0, 4, 97]
      (by decide) (by decide) (by decide)⟩

/-- C9: the claim says a stamp with declared payload length zero is read
as zero payload bytes and relayed with an empty payload.  The code awaits
readBytes of the declared size, and readBytes 0 never resolves because
Node Readable.read with size zero always returns null (client.js lines
75-87): for every id and header declaring length zero, the opcode 66
handler hangs and relays nothing. -/
theorem op66_declared_zero_hangs (selfId x y z : Nat) :
    op66 selfId [x, y, z, 0, 0, 0] = none := by
  simp [op66, readBytes]

/-- The opcode 35 brush transition at the level of the counter alone. -/
def brushNext (b : Nat) : Nat :=
  b % 3 + 1

lemma op35S_brush (c : Client) : (op35S c).brush = brushNext c.brush :=
  rfl

lemma iterate_op35S_brush (k : Nat) (c : Client) :
    (op35S^[k] c).brush = brushNext^[k] c.brush := by
  induction k generalizing c with
  | zero => rfl
  | succ n ih =>
    rw [Function.iterate_succ_apply, Function.iterate_succ_apply, ih, op35S_brush]

lemma brushNext_iterate_zero (k : Nat) (hk : 1 ≤ k) :
    brushNext^[k] 0 = (k - 1) % 3 + 1 := by
  induction k with
  | zero => omega
  | succ n ih =>
    cases Nat.eq_zero_or_pos n with
    | inl h0 => subst h0; rfl
    | inr hpos =>
      rw [Function.iterate_succ_apply', ih hpos]
      simp only [brushNext]
      omega

/-- C6: starting from the initial brush value 0, applying the opcode 35
handler k times (k at least 1) leaves the brush counter at
((k - 1) mod 3) + 1, so it cycles 1, 2, 3, 1, 2, 3 and never returns
to 0. -/
theorem op35_cycle (c : Client) (k : Nat) (h0 : c.brush = 0) (hk : 1 ≤ k) :
    (op35S^[k] c).brush = (k - 1) % 3 + 1 ∧ (op35S^[k] c).brush ≠ 0 := by
  rw [iterate_op35S_brush, h0, brushNext_iterate_zero k hk]
  exact ⟨rfl, by omega⟩

/-- Witness for the opcode 35 cycle at k = 5 on a fresh client. -/
theorem op35_cycle_witness :
    cA.brush = 0 ∧ 1 ≤ 5
    ∧ ((op35S^[5] cA).brush = (5 - 1) % 3 + 1 ∧ (op35S^[5] cA).brush ≠ 0) :=
  ⟨rfl, by decide, op35_cycle cA 5 rfl (by decide)⟩

/-- C7: a connection arriving while the client table holds fewer than 255
clients is admitted (a client with a fresh id below 256 is created and
added to the table); one arriving while the table holds exactly 255
clients receives the capacity error frame naming 255 of 255 and is closed
with no client created. -/
theorem capacity_cap (ids : List Nat) :
    (ids.length < 255 →
      ∃ i, i < 256 ∧ i ∉ ids ∧ connectionHandler ids = (none, ids ++ [i]))
    ∧ (ids.length = 255 →
      connectionHandler ids
        = (some ([0] ++ strBytes ("Server is full (255/255)") ++ [0]), ids)) := by
  constructor
  · intro h
    have hlt : ¬ 255 ≤ ids.length := by omega
    cases hf : (List.range 256).find? (fun i => !(decide (i ∈ ids))) with
    | some i =>
      refine ⟨i, ?_, ?_, ?_⟩
      · have hm := List.mem_of_find?_eq_some hf
        simpa [List.mem_range] using hm
      · have hp := List.find?_some hf
        simpa using hp
      · simp [connectionHandler, hlt, hf]
    | none =>
      exfalso
      have hsub : (List.range 256) ⊆ ids := by
        intro x hx
        have hx2 := List.find?_eq_none.mp hf x hx
        simpa using hx2
      have hsp := (List.nodup_range 256).subperm hsub
      have hlen := hsp.length_le
      simp [List.length_range] at hlen
      omega
  · intro h
    have hge : 255 ≤ ids.length := by omega
    have hframe : serverFullFrame 255 = [0] ++ strBytes ("Server is full (255/255)") ++ [0] := by
      decide
    simp only [connectionHandler, if_pos hge, h, hframe]
    simp

/-- Witness for the capacity theorem: a table holding ids 0 to 254. -/
theorem capacity_cap_witness :
    (List.range 255).length = 255
    ∧ connectionHandler (List.range 255)
      = (some ([0] ++ strBytes ("Server is full (255/255)") ++ [0]), List.range 255) :=
  ⟨by simp, (capacity_cap (List.range 255)).2 (by simp)⟩

/-- C8: an opcode 21 kick with a valid reason issued in the lobby room
named null, or issued by a client that is not the room operator, only
sends the issuer the corresponding refusal serverMessage; no kick action
is performed and the room is left untouched (the handler returns no state
change). -/
theorem kick_denied (room : Room) (selfRef selfId : Nat) (nick reason : String)
    (hp : printableAscii reason = true) (hl : reason.length ≤ 200)
    (hcase : room.name = "null" ∨ room.op ≠ JVal.num selfId) :
    kickHandler room selfRef selfId nick reason
      = ([(selfRef, serverMessage
          (if room.name = "null" then cantKickLobbyMsg else cantKickHereMsg) 127 255 255)],
        none) := by
  unfold kickHandler
  have h1 : ¬ (printableAscii reason = false) := by simp [hp]
  have h2 : ¬ (200 < reason.length) := by omega
  rw [if_neg h1, if_neg h2]
  by_cases hn : room.name = "null"
  · rw [if_pos hn, if_pos hn]
  · rw [if_neg hn, if_neg hn]
    have hop : ¬ (room.op = JVal.num selfId) := by
      cases hcase with
      | inl hh => exact absurd hh hn
      | inr hh => exact hh
    rw [if_pos hop]

/-- Fixture: a room named r1 whose only member is cA and whose operator
id is 0. -/
def roomK : Room :=
  { name := "r1", clients := [cA], op := JVal.num 0 }

/-- Witness for the kick refusal: client id 1 (not the operator) kicks in
room r1. -/
theorem kick_denied_witness :
    printableAscii ("bye") = true
    ∧ kickHandler roomK 101 1 ("aaa") ("bye")
      = ([(101, serverMessage
          (if roomK.name = "null" then cantKickLobbyMsg else cantKickHereMsg) 127 255 255)],
        none) :=
  ⟨by decide, kick_denied roomK 101 1 ("aaa") ("bye") (by decide) (by decide)
    (Or.inr (by decide))⟩

lemma getD_take_of_lt {α : Type} (l : List α) (n i : Nat) (d : α) (h : i < n) :
    (l.take n).getD i d = l.getD i d := by
  induction l generalizing n i with
  | nil => simp
  | cons x xs ih =>
    cases n with
    | zero => omega
    | succ m =>
      cases i with
      | zero => simp
      | succ j => simpa using ih m j (by omega)

/-- C10: a stored opcode 37 payload whose first byte is at least 192 lands
at brushSelection index 4, one past the declared range 0 to 3 (first
conjunct: on the initial four-entry array the store appends a fifth
entry); the join replay reads only indices 0 to 3 (second conjunct: the
member state writes only depend on the first four entries); and index 0 is
never overwritten by the store branch, whose index is always at least 1
(third conjunct). -/
theorem op37_index_four_invisible :
    (∀ (c : Client) (a b : Nat), 192 ≤ a → a ≤ 255 → a ≠ 194 → b ≠ 195 →
      c.brushSelection.length = 4 →
      (op37 c a b).1.brushSelection = c.brushSelection ++ [[a, b]])
    ∧ (∀ (dst : Nat) (m : Client),
      memberStateWrites dst m
        = memberStateWrites dst { m with brushSelection := m.brushSelection.take 4 })
    ∧ (∀ (c : Client) (a b : Nat), a ≠ 194 → b ≠ 195 →
      ((op37 c a b).1.brushSelection).getD 0 [] = c.brushSelection.getD 0 []) := by
  refine ⟨?_, ?_, ?_⟩
  · intro c a b h1 h2 h3 h4 hlen
    have hdiv : a / 64 = 3 := by omega
    simp only [op37, if_pos (And.intro h3 h4), hdiv]
    simp [arraySet, hlen]
  · intro dst m
    simp only [memberStateWrites]
    simp
    intro a ha
    rw [← List.getD_eq_getElem?_getD, ← List.getD_eq_getElem?_getD,
      getD_take_of_lt _ _ _ _ ha]
  · intro c a b h3 h4
    simp only [op37, if_pos (And.intro h3 h4)]
    rcases hl : c.brushSelection with _ | ⟨x, xs⟩
    · simp [arraySet, List.replicate_succ]
    · simp only [arraySet]
      by_cases hi : a / 64 + 1 < (x :: xs).length
      · rw [if_pos hi]
        simp
      · rw [if_neg hi]
        simp

/-- Witness for the index four theorem: storing payload (192, 0) on a
fresh client appends a fifth brushSelection entry. -/
theorem op37_index_four_invisible_witness :
    (192 ≤ 192 ∧ selClient.brushSelection.length = 4)
    ∧ (op37 selClient 192 0).1.brushSelection = selClient.brushSelection ++ [[192, 0]] :=
  ⟨⟨by decide, by decide⟩,
    op37_index_four_invisible.1 selClient 192 0 (by decide) (by decide) (by decide)
      (by decide) (by decide)⟩

lemma filterMap_send (l : List Client) (buf : List Nat) (cid : Nat)
    (h : ∀ m ∈ l, m.id ≠ cid) :
    l.filterMap (fun m =>
        if JVal.num m.id = JVal.num cid then none else some ((m.ref, buf) : Write))
      = l.map (fun m => ((m.ref, buf) : Write)) := by
  induction l with
  | nil => rfl
  | cons x xs ih =>
    have hx : x.id ≠ cid := h x (List.mem_cons_self x xs)
    have ih2 := ih (fun m hm => h m (List.mem_cons_of_mem x hm))
    simp only [JVal.num.injEq] at ih2
    simp [List.filterMap_cons, hx, ih2]

/-- C5: joining a client c that is not yet a member of room R writes, in
order, the frame [16, member count], one roster frame per existing member,
each existing member state block, the frame [17, c.id, c.nick, 0] to every
existing member exactly once (so c is notified of nobody and nobody is
notified twice), the sync request, all computed from the member set
without c; the member set afterwards is the old set with c appended (so c
is added only after every write).  Joining an existing member is a no-op.
The hypothesis that no member shares the id of c is the id uniqueness
invariant of the registry; it makes the broadcast exclusion by id
equivalent to exclusion of c itself. -/
theorem join_replay (r : Room) (c : Client) :
    ((∀ m ∈ r.clients, m.id ≠ c.id) →
      r.clients.any (fun m => m.ref == c.ref) = false →
      (Room.join r c).2 = joinSpecWrites r c
      ∧ (Room.join r c).1.clients = r.clients ++ [c]
      ∧ (Room.join r c).1.name = r.name
      ∧ (Room.join r c).1.op = (if r.clients.isEmpty then JVal.num c.id else r.op))
    ∧ (r.clients.any (fun m => m.ref == c.ref) = true → Room.join r c = (r, [])) := by
  constructor
  · intro hid hnot
    have hcond : ¬ ((r.clients.any fun m => m.ref == c.ref) = true) := by
      simp [hnot]
    have h2 : (if r.clients.isEmpty then { r with op := JVal.num c.id } else r).clients
        = r.clients := by
      split <;> rfl
    have hsend : Room.send (if r.clients.isEmpty then { r with op := JVal.num c.id } else r)
          ([17, c.id] ++ strBytes c.nick ++ [0]) (JVal.num c.id)
        = r.clients.map (fun m => ((m.ref, [17, c.id] ++ strBytes c.nick ++ [0]) : Write)) := by
      unfold Room.send
      rw [h2]
      exact filterMap_send r.clients _ c.id hid
    have hsync : Room.requestSync
          (if r.clients.isEmpty then { r with op := JVal.num c.id } else r) c
        = Room.requestSync r c := by
      unfold Room.requestSync
      rw [h2]
    refine ⟨?_, ?_, ?_, ?_⟩
    · show (Room.join r c).2 = joinSpecWrites r c
      unfold Room.join
      rw [if_neg hcond]
      dsimp only
      rw [h2, hsend, hsync]
      rfl
    · unfold Room.join
      rw [if_neg hcond]
      dsimp only
      rw [h2]
    · unfold Room.join
      rw [if_neg hcond]
      dsimp only
      split <;> rfl
    · unfold Room.join
      rw [if_neg hcond]
      dsimp only
      split <;> rfl
  · intro h
    unfold Room.join
    rw [if_pos h]

/-- Witness for the join replay: cB (id 1) joins room r1 whose only
member is cA (id 0). -/
theorem join_replay_witness :
    (∀ m ∈ roomK.clients, m.id ≠ cB.id)
    ∧ ((Room.join roomK cB).2 = joinSpecWrites roomK cB
      ∧ (Room.join roomK cB).1.clients = roomK.clients ++ [cB]
      ∧ (Room.join roomK cB).1.name = roomK.name
      ∧ (Room.join roomK cB).1.op
        = (if roomK.clients.isEmpty then JVal.num cB.id else roomK.op)) :=
  ⟨by decide, (join_replay roomK cB).1 (by decide) (by decide)⟩

lemma discWorld_none (w : World) (r : String) (h : w.selfRoom = none) :
    discWorld w r = { w with
      events := w.events ++ [Ev.cDis r, Ev.sDis w.self.id r],
      registry := w.registry.erase w.self.id } := by
  unfold discWorld
  rw [h]

lemma discWorld_selfRoom (w : World) (r : String) : (discWorld w r).selfRoom = none := by
  unfold discWorld
  cases hw : w.selfRoom with
  | none => simp [hw]
  | some rn =>
    dsimp only
    cases hf : w.rooms.find? (fun p => p.1 == rn) with
    | none => simp
    | some pr =>
      dsimp only
      split <;> simp

lemma discWorld_self (w : World) (r : String) : (discWorld w r).self = w.self := by
  unfold discWorld
  cases hw : w.selfRoom with
  | none => simp [hw]
  | some rn =>
    dsimp only
    cases hf : w.rooms.find? (fun p => p.1 == rn) with
    | none => simp
    | some pr =>
      dsimp only
      split <;> simp

lemma discWorld_registry (w : World) (r : String) :
    (discWorld w r).registry = w.registry.erase w.self.id := by
  unfold discWorld
  cases hw : w.selfRoom with
  | none => simp [hw]
  | some rn =>
    dsimp only
    cases hf : w.rooms.find? (fun p => p.1 == rn) with
    | none => simp
    | some pr =>
      dsimp only
      split <;> simp

/-- C4 counterexample: the claim says a second disconnect emits no
duplicate events, but the code re-runs the emit lines unconditionally.
Disconnecting the single client of w0 twice with the same reason puts two
client-level disconnect events on the bus, where one call produces one. -/
theorem disconnect_twice_duplicate_events :
    ((discWorld (discWorld w0 ("gone")) ("gone")).events.count (Ev.cDis ("gone")) = 2)
    ∧ ((discWorld w0 ("gone")).events.count (Ev.cDis ("gone")) = 1) := by
  decide

/-- C4 amended: a second disconnect leaves the client table, the room
table and the room pointer exactly as the first call left them, and adds
no further part or room-deletion events (the id is released exactly once
and the room is parted exactly once), but it does append one more
client-level and one more server-level disconnect event.  The Nodup
hypothesis is the key-uniqueness of the client table map. -/
theorem disconnect_twice_state (w : World) (r1 r2 : String) (hnd : w.registry.Nodup) :
    (discWorld (discWorld w r1) r2).registry = (discWorld w r1).registry
    ∧ (discWorld (discWorld w r1) r2).rooms = (discWorld w r1).rooms
    ∧ (discWorld (discWorld w r1) r2).selfRoom = (discWorld w r1).selfRoom
    ∧ (discWorld (discWorld w r1) r2).events
      = (discWorld w r1).events ++ [Ev.cDis r2, Ev.sDis w.self.id r2] := by
  have h1 := discWorld_selfRoom w r1
  have hself := discWorld_self w r1
  have hreg := discWorld_registry w r1
  rw [discWorld_none (discWorld w r1) r2 h1]
  refine ⟨?_, rfl, ?_, ?_⟩
  · show (discWorld w r1).registry.erase (discWorld w r1).self.id = (discWorld w r1).registry
    rw [hself, hreg]
    have hnm : w.self.id ∉ w.registry.erase w.self.id := by
      intro hmem
      exact absurd (((List.Nodup.mem_erase_iff hnd).mp hmem).1) (by simp)
    exact List.erase_of_not_mem hnm
  · rw [h1]
  · rw [hself]

/-- Witness for the amended disconnect theorem on the one-client world. -/
theorem disconnect_twice_state_witness :
    w0.registry.Nodup
    ∧ (discWorld (discWorld w0 ("x")) ("y")).events
      = (discWorld w0 ("x")).events ++ [Ev.cDis ("y"), Ev.sDis w0.self.id ("y")] :=
  ⟨by decide, (disconnect_twice_state w0 ("x") ("y") (by decide)).2.2.2⟩

